import Mathlib

/-!
Verification of the process/IO supervision engine of the `rust-extensions`
container shim (crates `shim-runc` and `runc-rust`).

The Lean definitions below are a shallow embedding of the Rust sources.
External effects (filesystem metadata, FIFO opens, the runc client's
create/start/kill/delete commands, byte-copy loops) are modelled by
environment records that carry the result each effectful primitive would
return; the control flow around those results is translated directly from
the source.  Rust `panic!`/`unwrap` on the current task is modelled by a
dedicated `panicked` outcome; a panic inside a *spawned* tokio task surfaces
at the `JoinHandle` as an error (tokio converts the `JoinError` when the
caller applies `?`), and is modelled as an error there.

File map:
- `src/crates/shim-runc/src/process/io.rs` : `ProcessIO`, `copy_pipes`
- `src/crates/shim-runc/src/process/init.rs` : `InitProcess` (async revision)
- `src/crates/shim-runc/src/process/process.rs` : `InitProcess` (revision used
  by `container.rs`), `ProcessState`
- `src/crates/shim-runc/src/container.rs` : `Container`
- `src/crates/runc-rust/src/monitor.rs` : `ProcessMonitor`
-/

namespace ShimRunc

/-- The `std::io::ErrorKind` values the modelled code produces or matches on:
`NotFound`, `Other`, `BrokenPipe`, `ConnectionRefused`. -/
inductive IoErr where
  | notFound
  | other
  | brokenPipe
  | connectionRefused
deriving DecidableEq

instance {ε α : Type} [DecidableEq ε] [DecidableEq α] : DecidableEq (Except ε α) := fun a b =>
  match a, b with
  | .error e, .error f => decidable_of_iff (e = f) (by simp)
  | .ok x, .ok y => decidable_of_iff (x = y) (by simp)
  | .error _, .ok _ => isFalse fun h => Except.noConfusion h
  | .ok _, .error _ => isFalse fun h => Except.noConfusion h

/-- Lifecycle states of a supervised process.  `process/init.rs` pulls this
enum from `process/state.rs` (not shipped in this snapshot); the identical
enum appears in `process/process.rs:66-74`, from which this is taken. -/
inductive ProcessState where
  | Unknown
  | Created
  | Running
  | Paused
  | Stopped
  | Deleted
deriving DecidableEq

/-- Outcome of running a code path that may `panic!`/`expect` on the current
task: either a panic, or a normal return value. -/
inductive Run (α : Type) where
  | panicked
  | ret (a : α)
deriving DecidableEq

/-- `StdioConfig` (`process/process.rs:76-82`): the three user-requested stdio
destination strings plus the terminal flag. -/
structure StdioConfig where
  stdin : String
  stdout : String
  stderr : String
  terminal : Bool
deriving DecidableEq

/-- The three stdio handles a `RuncIO` backend exposes to the shim
(`runc-rust/src/io.rs`): write side of stdin, read side of stdout, read side
of stderr, each `Option`al.  File handles are abstracted to their raw
descriptor numbers. -/
structure RuncIoFds where
  stdinFd : Option Nat
  stdoutFd : Option Nat
  stderrFd : Option Nat
deriving DecidableEq

/-- Which concrete `RuncIO` implementation a `Box<dyn RuncIO>` holds:
`NullIO` (`runc-rust/src/io.rs:320-332`) or `RuncPipedIO`
(`runc-rust/src/io.rs:146-204`). -/
inductive RuncIoKind where
  | nullIo
  | pipedIo
deriving DecidableEq

/-- A `Box<dyn RuncIO>` value: its implementation tag and the stdio handles
its `stdin()`/`stdout()`/`stderr()` methods return.  For `NullIO` the trait
defaults apply and all three are `None` (`runc-rust/src/io.rs:33-45`). -/
structure RuncIoBackend where
  kind : RuncIoKind
  fds : RuncIoFds
deriving DecidableEq

/-- The `NullIO` backend: `stdin()`, `stdout()` and `stderr()` all return
`None` (trait defaults, `runc-rust/src/io.rs:33-45`). -/
def nullBackend : RuncIoBackend :=
  { kind := .nullIo, fds := { stdinFd := none, stdoutFd := none, stderrFd := none } }

/-- `ProcessIO` (`shim-runc/src/process/io.rs:38-44`): the optional IO
backend, the parsed stdout URI, the `copy` flag, and the stdio config. -/
structure ProcessIo where
  io : Option RuncIoBackend
  uri : Option String
  copy : Bool
  stdio : StdioConfig
deriving DecidableEq

/-- `ProcessIO::new` (`io.rs:46-133`).  The function body opens with an
unconditional early return (`io.rs:53-59`, comment "Only NullIO is supported
now."): it builds a `NullIO` backend and returns `copy == false` for every
`StdioConfig`.  The URI-inspection code at `io.rs:61-132` is unreachable.
`nullIoNew` is the result of `NullIO::new()` (opening `/dev/null`). -/
def ProcessIo.new (_id : String) (_io_uid _io_gid : Int) (stdio : StdioConfig)
    (nullIoNew : Except IoErr Unit) : Except IoErr ProcessIo :=
  match nullIoNew with
  | .error e => .error e
  | .ok _ => .ok { io := some nullBackend, uri := none, copy := false, stdio := stdio }

/-- Results of the effectful primitives consulted by the free function
`copy_pipes` (`io.rs:224-341`): the `is_fifo` metadata checks on the stdout
and stderr destination paths, the destination FIFO/file opens, and the
`tokio::io::copy` loops (which return a byte count or an error). -/
structure CopyEnv where
  stdoutIsFifo : Except IoErr Bool
  stderrIsFifo : Except IoErr Bool
  stdoutFifoWriteOpen : Except IoErr Unit
  stdoutFifoReadOpen : Except IoErr Unit
  stderrFifoWriteOpen : Except IoErr Unit
  stderrFifoReadOpen : Except IoErr Unit
  stdoutFileOpen : Except IoErr Unit
  stderrFileOpen : Except IoErr Unit
  stdoutCopy : Except IoErr Nat
  stderrCopy : Except IoErr Nat
  stdinFifoOpen : Except IoErr Unit
  stdinCopy : Except IoErr Nat
deriving DecidableEq

/-- The `dest` closure of `copy_pipes` (`io.rs:234-258`): when the pipe-pair
reader handle is present, run the copy loop and return its result; when it is
`None`, log and return `BrokenPipe`. -/
def destResult (readerFd : Option Nat) (copyRes : Except IoErr Nat) : Except IoErr Unit :=
  match readerFd with
  | some _ => copyRes.map fun _ => ()
  | none => .error .brokenPipe

/-- Result of one spawned stdout/stderr copy task when the destination is a
FIFO (`io.rs:260-279`): open the write end, open the read end, then `dest`. -/
def fifoTaskResult (wOpen rOpen : Except IoErr Unit) (readerFd : Option Nat)
    (copyRes : Except IoErr Nat) : Except IoErr Unit := do
  let _ ← wOpen
  let _ ← rOpen
  destResult readerFd copyRes

/-- Result of one spawned stdout/stderr copy task when the destination is a
plain file (`io.rs:286-304`): open it for append, then `dest`.  (The
`same_file` sharing branch at `io.rs:280-285` is dead: `same_file` is
initialized to `None` at `io.rs:229` and the only assignment to it is
commented out at `io.rs:297-301`.) -/
def fileTaskResult (fOpen : Except IoErr Unit) (readerFd : Option Nat)
    (copyRes : Except IoErr Nat) : Except IoErr Unit := do
  let _ ← fOpen
  destResult readerFd copyRes

/-- Result of the stdout or stderr copy task given the destination's
`is_fifo` answer (`io.rs:260-305`). -/
def streamTaskResult (isFifoVal : Bool) (wOpen rOpen fOpen : Except IoErr Unit)
    (readerFd : Option Nat) (copyRes : Except IoErr Nat) : Except IoErr Unit :=
  if isFifoVal then fifoTaskResult wOpen rOpen readerFd copyRes
  else fileTaskResult fOpen readerFd copyRes

/-- Result of the spawned stdin copy task (`io.rs:309-333`): it calls
`io.stdin().unwrap()`, which panics inside the task when the backend has no
stdin handle; the panic reaches the joining `t.await?` as a `JoinError`,
converted to an `Other`-kind io error.  A copy failure is mapped to
`BrokenPipe` (`io.rs:324-327`). -/
def stdinTaskResult (stdinFd : Option Nat) (copyRes : Except IoErr Nat) : Except IoErr Unit :=
  match stdinFd with
  | none => .error .other
  | some _ =>
    match copyRes with
    | .ok _ => .ok ()
    | .error _ => .error .brokenPipe

/-- The free function `copy_pipes` (`io.rs:224-341`).  For each of
stdout/stderr it checks `is_fifo` on the destination (synchronously, `?` at
`io.rs:260`), spawns the copy task for the matching branch, then for stdin
(if requested) opens the destination FIFO synchronously (`?` at `io.rs:308`)
and spawns the stdin copy task.  Finally (`io.rs:336-338`) it awaits every
spawned task in order — `for t in tasks { t.await??; }` — so it returns only
after all copy tasks have completed, and the first task error is returned to
the caller. -/
def copyPipesFree (io : RuncIoBackend) (stdio : StdioConfig) (env : CopyEnv) :
    Except IoErr Unit := do
  let stdoutFifo ← env.stdoutIsFifo
  let t0 := streamTaskResult stdoutFifo env.stdoutFifoWriteOpen env.stdoutFifoReadOpen
    env.stdoutFileOpen io.fds.stdoutFd env.stdoutCopy
  let stderrFifo ← env.stderrIsFifo
  let t1 := streamTaskResult stderrFifo env.stderrFifoWriteOpen env.stderrFifoReadOpen
    env.stderrFileOpen io.fds.stderrFd env.stderrCopy
  let stdinTask ←
    if stdio.stdin ≠ "" then do
      let _ ← env.stdinFifoOpen
      pure (some (stdinTaskResult io.fds.stdinFd env.stdinCopy))
    else
      pure (none : Option (Except IoErr Unit))
  let _ ← t0
  let _ ← t1
  match stdinTask with
  | some r => r
  | none => .ok ()

/-- `ProcessIO::copy_pipes` (`io.rs:152-159`): a no-op returning `Ok(())`
when `copy == false`; otherwise `self.io()` is `expect`ed (panicking if the
backend is absent) and the free `copy_pipes` runs on it. -/
def ProcessIo.copyPipes (p : ProcessIo) (env : CopyEnv) : Run (Except IoErr Unit) :=
  if !p.copy then .ret (.ok ())
  else
    match p.io with
    | none => .panicked
    | some backend => .ret (copyPipesFree backend p.stdio env)

/-- `CreateConfig` (`process/config.rs:39-53`), restricted to the fields the
modelled code paths consult. -/
structure CreateConfig where
  id : String
  bundle : String
  terminal : Bool
  stdin : String
  stdout : String
  stderr : String
deriving DecidableEq

/-- State of the oneshot receiver stored in `InitProcess::wait_block`:
no value sent yet, a value sent (`tx.send`), or the sender dropped without
sending. -/
inductive RecvState where
  | pending
  | ready
  | dropped
deriving DecidableEq

/-- `InitProcess` (`process/init.rs:50-86`), the async revision.  The
`Arc<Mutex<()>>` guards nothing and is omitted; `runtime:
Option<RuncAsyncClient>` is tracked as presence (`runtimeSet`), `stdin:
Option<Fifo>` as `Option Unit`, and timestamps as abstract `Nat`s. -/
structure InitProcess where
  state : ProcessState
  waitBlock : Option RecvState
  workDir : String
  id : String
  bundle : String
  io : Option ProcessIo
  runtimeSet : Bool
  pausing : Bool
  status : Int
  exited : Option Nat
  pid : Int
  stdinFifo : Option Unit
  stdio : StdioConfig
  ioUid : Int
  ioGid : Int
  noPivotRoot : Bool
deriving DecidableEq

/-- `InitProcess::new` (`init.rs:93-148`): builds the runc client (failure
mapped to `NotFound`), then the struct with `state = Unknown`, `pid = 0`,
`status = 0`, no exit timestamp, no receiver, no IO, no stdin. -/
def InitProcess.new (workDir : String) (cfg : CreateConfig) (newRuncOk : Bool)
    (ioUid ioGid : Int) (noPivotRoot : Bool) : Except IoErr InitProcess :=
  if newRuncOk then
    .ok { state := .Unknown
          waitBlock := none
          workDir := workDir
          id := cfg.id
          bundle := cfg.bundle
          io := none
          runtimeSet := true
          pausing := false
          status := 0
          exited := none
          pid := 0
          stdinFifo := none
          stdio := { stdin := cfg.stdin, stdout := cfg.stdout, stderr := cfg.stderr,
                     terminal := cfg.terminal }
          ioUid := ioUid
          ioGid := ioGid
          noPivotRoot := noPivotRoot }
  else
    .error .notFound

/-- Results of the effectful primitives consulted by `InitProcess::create`
(`init.rs:151-197`) and `create_and_io_preparation` (`init.rs:204-266`):
`NullIO::new` inside `ProcessIO::new`, the nested tokio runtime build, the
runc `create` command, the stdin destination FIFO write-end open, the copy
environment for `copy_pipes`, the pid-file open, and the (always numeric,
`init.rs:194`) pid-file content. -/
structure CreateEnv where
  nullIoNew : Except IoErr Unit
  runtimeBuild : Except IoErr Unit
  runcCreate : Except IoErr Unit
  stdinWriteFifoOpen : Except IoErr Unit
  copyEnv : CopyEnv
  pidFileOpen : Except IoErr Unit
  pidFileContent : Int
deriving DecidableEq

/-- `InitProcess::create_and_io_preparation` (`init.rs:204-266`): build a
nested tokio runtime (`?` at `init.rs:211`), take the runc client
(`expect`, panicking when absent), spawn the `open_stdin` task (opens the
stdin destination write end when `config.stdin != ""`), take the stored
`ProcessIO` (`expect`, panicking when absent), spawn the `copy_io` task
(panicking inside the task when `config.terminal`, else
`ProcessIO::copy_pipes`; a task panic surfaces at `copy_io.await?` as an
`Other` error), then await: the create command first (errors mapped to
`Other`), then `open_stdin` (storing the FIFO via `get_or_insert`), then
restore the runc client, then `copy_io` (restoring the `ProcessIO`). -/
def InitProcess.createAndIoPreparation (p : InitProcess) (cfg : CreateConfig)
    (env : CreateEnv) : Run (InitProcess × Except IoErr Unit) :=
  match env.runtimeBuild with
  | .error e => .ret (p, .error e)
  | .ok _ =>
    if p.runtimeSet = false then .panicked
    else
      let p1 := { p with runtimeSet := false }
      let openStdinRes : Except IoErr (Option Unit) :=
        if cfg.stdin ≠ "" then env.stdinWriteFifoOpen.map (fun _ => some ()) else .ok none
      match p1.io with
      | none => .panicked
      | some procIo =>
        let p2 := { p1 with io := none }
        let copyIoRes : Except IoErr ProcessIo :=
          if cfg.terminal then .error .other
          else
            match procIo.copyPipes env.copyEnv with
            | .panicked => .error .other
            | .ret (.ok _) => .ok procIo
            | .ret (.error e) => .error e
        match env.runcCreate with
        | .error _ => .ret (p2, .error .other)
        | .ok _ =>
          match openStdinRes with
          | .error e => .ret (p2, .error e)
          | .ok fOpt =>
            let p3 :=
              match fOpt with
              | some f => { p2 with stdinFifo := some (p2.stdinFifo.getD f) }
              | none => p2
            let p4 := { p3 with runtimeSet := true }
            match copyIoRes with
            | .error e => .ret (p4, .error e)
            | .ok procIo2 => .ret ({ p4 with io := some (p4.io.getD procIo2) }, .ok ())

/-- `InitProcess::create` (`init.rs:151-197`): panic on `config.terminal`
(`init.rs:157`); otherwise build the `ProcessIO` (`?`), `unwrap` its backend
for the create options (`init.rs:164`), store it via `get_or_insert`, create
the oneshot channel and store the receiver in `wait_block`, run
`create_and_io_preparation` — whose `io::Result` is dropped on the floor at
`init.rs:188` — then unconditionally `tx.send(()).unwrap()` (the stored
receiver is alive, so the send succeeds and the receiver becomes ready),
open and read the pid-file (`?`), store the pid and set `state = Created`. -/
def InitProcess.create (p : InitProcess) (cfg : CreateConfig) (env : CreateEnv) :
    Run (InitProcess × Except IoErr Unit) :=
  if cfg.terminal then .panicked
  else
    match ProcessIo.new cfg.id p.ioUid p.ioGid p.stdio env.nullIoNew with
    | .error e => .ret (p, .error e)
    | .ok procIo =>
      match procIo.io with
      | none => .panicked
      | some _ =>
        let p1 := { p with io := some (p.io.getD procIo) }
        let p2 := { p1 with waitBlock := some RecvState.pending }
        match p2.createAndIoPreparation cfg env with
        | .panicked => .panicked
        | .ret (p3, _) =>
          let p4 := { p3 with waitBlock := p3.waitBlock.map fun _ => RecvState.ready }
          match env.pidFileOpen with
          | .error e => .ret (p4, .error e)
          | .ok _ =>
            .ret ({ p4 with pid := env.pidFileContent, state := .Created }, .ok ())

/-- Outcome of `Process::wait` (`init.rs:436-449`): the call either suspends
on `rx.await` (receiver taken but no value sent yet) or returns. -/
inductive WaitRun where
  | blocked (p : InitProcess)
  | ret (p : InitProcess) (r : Except IoErr Unit)
deriving DecidableEq

/-- `Process::wait` for `InitProcess` (`init.rs:436-449`): `take` the
receiver out of `wait_block` (`NotFound` when already taken), block on it
(`Other` when the sender was dropped), then set `state = Stopped`. -/
def InitProcess.wait (p : InitProcess) : WaitRun :=
  match p.waitBlock with
  | none => .ret p (.error .notFound)
  | some rx =>
    let p1 := { p with waitBlock := none }
    match rx with
    | .pending => .blocked p1
    | .ready => .ret { p1 with state := .Stopped } (.ok ())
    | .dropped => .ret p1 (.error .other)

/-- `InitState::start` for `InitProcess` (`init.rs:315-338`): `expect` the
runc client (panicking when absent), run its `start` command (errors mapped
to `Other`), and on success set `state = Running` — with no check of the
current state. -/
def InitProcess.start (p : InitProcess) (runcStart : Except IoErr Unit) :
    Run (InitProcess × Except IoErr Unit) :=
  if p.runtimeSet then
    match runcStart with
    | .error _ => .ret (p, .error .other)
    | .ok _ => .ret ({ p with state := .Running }, .ok ())
  else
    .panicked

/-- `InitState::delete` for `InitProcess` (`init.rs:340-355`): run the runc
`delete` command and on success set `state = Deleted` — with no check of the
current state. -/
def InitProcess.delete (p : InitProcess) (runcDelete : Except IoErr Unit) :
    Run (InitProcess × Except IoErr Unit) :=
  if p.runtimeSet then
    match runcDelete with
    | .error _ => .ret (p, .error .other)
    | .ok _ => .ret ({ p with state := .Deleted }, .ok ())
  else
    .panicked

/-- `InitState::kill` for `InitProcess` (`init.rs:373-388`): run the runc
`kill` command with the given signal and `all` flag (errors mapped to
`Other`); no field of the process is written on either path. -/
def InitProcess.kill (p : InitProcess) (_sig : Nat) (_all : Bool)
    (runcKill : Except IoErr Unit) : Run (InitProcess × Except IoErr Unit) :=
  if p.runtimeSet then
    match runcKill with
    | .error _ => .ret (p, .error .other)
    | .ok _ => .ret (p, .ok ())
  else
    .panicked

/-- `InitState::set_exited` for `InitProcess` (`init.rs:390-396`): under the
mutex, set `state = Stopped`, record the exit timestamp (`Utc::now()`,
passed in as `now`) and the status. -/
def InitProcess.setExited (p : InitProcess) (status : Int) (now : Nat) : InitProcess :=
  { p with state := .Stopped, exited := some now, status := status }

/-- `InitState::state` for `InitProcess` (`init.rs:398-404`): `NotFound`
while still `Unknown`, otherwise the current state. -/
def InitProcess.queryState (p : InitProcess) : Except IoErr ProcessState :=
  match p.state with
  | .Unknown => .error .notFound
  | s => .ok s

/-- One invocation of a state-affecting `InitProcess` operation, carrying the
results its external effects would return. -/
inductive Op where
  | create (cfg : CreateConfig) (env : CreateEnv)
  | start (runcStart : Except IoErr Unit)
  | delete (runcDelete : Except IoErr Unit)
  | kill (sig : Nat) (all : Bool) (runcKill : Except IoErr Unit)
  | setExited (status : Int) (now : Nat)
  | wait
deriving DecidableEq

/-- `Step p op p'`: the operation `op`, invoked on `p`, returns (rather than
panicking or suspending forever) with post-state `p'` — successfully or not. -/
inductive Step : InitProcess → Op → InitProcess → Prop where
  | create {p cfg env p' r} : p.create cfg env = .ret (p', r) →
      Step p (.create cfg env) p'
  | start {p e p' r} : p.start e = .ret (p', r) → Step p (.start e) p'
  | delete {p e p' r} : p.delete e = .ret (p', r) → Step p (.delete e) p'
  | kill {p sig all e p' r} : p.kill sig all e = .ret (p', r) →
      Step p (.kill sig all e) p'
  | setExited {p st t} : Step p (.setExited st t) (p.setExited st t)
  | wait {p p' r} : p.wait = .ret p' r → Step p .wait p'

/-- A sequence of returning operation invocations. -/
inductive Steps : InitProcess → List Op → InitProcess → Prop where
  | nil {p} : Steps p [] p
  | cons {p o p1 os p2} : Step p o p1 → Steps p1 os p2 → Steps p (o :: os) p2

/-- Whether an operation is one of the two completion-observation events:
`set_exited` (the exit reported by the monitor/reaper) or `wait` (consuming
the oneshot completion signal). -/
def Op.observesExit : Op → Bool
  | .setExited _ _ => true
  | .wait => true
  | _ => false

/-- Whether an operation is `set_exited`. -/
def Op.isSetExited : Op → Bool
  | .setExited _ _ => true
  | _ => false

/-- `Exit` (`runc-rust/src/monitor.rs:87-92`): timestamp, pid of the spawned
command, exit status code. -/
structure Exit where
  ts : Nat
  pid : Option Nat
  status : Int
deriving DecidableEq

/-- `std::process::Output` as consumed by `ProcessMonitor::start`: only the
exit status code matters to the modelled control flow. -/
structure CmdOutput where
  statusCode : Int
deriving DecidableEq

/-- Results of the effectful primitives consulted by `ProcessMonitor::start`
(`monitor.rs:33-66`): the spawn, the `wait_with_output` await, the exit
status code (`None` when the child was terminated by a signal), the child
pid, and whether the oneshot receiver had been dropped by the time of the
send. -/
structure MonitorEnv where
  spawnRes : Except IoErr Unit
  waitOutputRes : Except IoErr Unit
  statusCode : Option Int
  childPid : Option Nat
  receiverDropped : Bool
deriving DecidableEq

/-- Outcome of `ProcessMonitor::start`: a panic of the supervising task, or a
return value together with the `Exit` that was delivered on the channel (if
any). -/
inductive MonitorStartResult where
  | panicked
  | ret (r : Except IoErr CmdOutput) (sent : Option Exit)
deriving DecidableEq

/-- `ProcessMonitor::start` (`monitor.rs:33-66`): spawn the command (`?`),
await it (`?`), take `out.status.code().unwrap()` (a panic when the child
was killed by a signal), then `tx.send(Exit {ts, pid, status})`: when the
receiver was already dropped the send fails and `start` returns a
`ConnectionRefused` error instead of panicking; otherwise it returns the
captured output. -/
def monitorStart (env : MonitorEnv) (now : Nat) : MonitorStartResult :=
  match env.spawnRes with
  | .error e => .ret (.error e) none
  | .ok _ =>
    match env.waitOutputRes with
    | .error e => .ret (.error e) none
    | .ok _ =>
      match env.statusCode with
      | none => .panicked
      | some c =>
        if env.receiverDropped then .ret (.error .connectionRefused) none
        else .ret (.ok { statusCode := c }) (some { ts := now, pid := env.childPid, status := c })

/-- State of the oneshot `Exit` receiver passed to `ProcessMonitor::wait`. -/
inductive ExitRecvState where
  | pending
  | value (e : Exit)
  | senderDropped
deriving DecidableEq

/-- Outcome of `ProcessMonitor::wait`: suspended, or returned. -/
inductive MonitorWaitResult where
  | blocked
  | ret (r : Except IoErr Exit)
deriving DecidableEq

/-- `ProcessMonitor::wait` (`monitor.rs:67-73`): await the oneshot receiver;
a received `Exit` is returned as-is, and a dropped sender surfaces as a
`BrokenPipe` error. -/
def monitorWait : ExitRecvState → MonitorWaitResult
  | .pending => .blocked
  | .value e => .ret (.ok e)
  | .senderDropped => .ret (.error .brokenPipe)

/-- Error type of `Container`'s fallible methods (`Box<dyn Error>` holding a
`ttrpc::Error::Others` in the source, `container.rs:249`). -/
inductive RpcErr where
  | processNotExists
  | notImplemented
deriving DecidableEq

/-- `InitProcess` of `process/process.rs:87-118` — the revision `container.rs`
imports (`container.rs:31-34`).  It derives `Clone`; all lifecycle fields are
plain data, so a clone carries independent copies of them. -/
structure PInitProcess where
  state : ProcessState
  workDir : String
  id : String
  bundle : String
  pausing : Bool
  status : Int
  exited : Option Nat
  pid : Int
  stdio : StdioConfig
deriving DecidableEq

/-- `InitState::start` of `process/process.rs:219-227`: run the runc `start`
command (errors mapped to `Other`) and on success set `state = Running`. -/
def PInitProcess.start (p : PInitProcess) (runcStart : Except IoErr Unit) :
    PInitProcess × Except IoErr Unit :=
  match runcStart with
  | .error _ => (p, .error .other)
  | .ok _ => ({ p with state := .Running }, .ok ())

/-- `InitState::kill` of `process/process.rs:255-264`: run the runc `kill`
command (`?`, errors mapped to `Other`) and then hit
`panic!("unimplemented!")`; no field is ever written. -/
def PInitProcess.kill (p : PInitProcess) (_sig : Nat) (_all : Bool)
    (runcKill : Except IoErr Unit) : Run (PInitProcess × Except IoErr Unit) :=
  match runcKill with
  | .error _ => .ret (p, .error .other)
  | .ok _ => .panicked

/-- `InitState::set_exited` of `process/process.rs:266-269`: take the mutex,
then `panic!("unimplemented!")`; no field is written. -/
def PInitProcess.setExited (_p : PInitProcess) (_status : Int) :
    Run PInitProcess := .panicked

/-- `Process::wait` of `process/process.rs:311-313`: `panic!("unimplemented!")`. -/
def PInitProcess.waitCall (_p : PInitProcess) : Run Unit := .panicked

/-- `Container` (`container.rs:53-64`): id, bundle, the init process itself
(`process_self`), and the exec-id map (modelled as an association list). -/
structure Container where
  id : String
  bundle : String
  process_self : PInitProcess
  processes : List (String × PInitProcess)
deriving DecidableEq

/-- `Container::process` (`container.rs:240-252`): exec-id `""` resolves to
the init process, anything else to the exec-id map (`processNotExists` when
absent); in both cases the stored `InitProcess` is returned as an owned
`.clone()` (`container.rs:244` and `container.rs:250`), not a reference. -/
def Container.process (c : Container) (eid : String) : Except RpcErr PInitProcess :=
  if eid = "" then .ok c.process_self
  else
    match c.processes.lookup eid with
    | some p => .ok p
    | none => .error .processNotExists

/-- The calling pattern of `Container`'s delegating methods (e.g.
`Container::delete`, `container.rs:269-275`): resolve a process via
`Container::process`, then operate on the value it returned.  Because
`Container::process` hands back an owned clone and nothing writes it back,
the container itself is untouched by whatever mutation `f` performs on the
handle. -/
def Container.mutateResolved (c : Container) (eid : String)
    (f : PInitProcess → PInitProcess) : Except RpcErr (Container × PInitProcess) :=
  match c.process eid with
  | .error e => .error e
  | .ok p => .ok (c, f p)

/-! Concrete inputs used by the closed counterexample and witness theorems. -/

/-- A concrete create request: no terminal, stdin unset, fifo destinations. -/
def cfgBase : CreateConfig :=
  { id := "c1", bundle := "/run/bundle", terminal := false,
    stdin := "", stdout := "fifo:/run/out", stderr := "fifo:/run/err" }

/-- The fresh `InitProcess` that `InitProcess.new` builds from `cfgBase`. -/
def pBase : InitProcess :=
  { state := .Unknown, waitBlock := none, workDir := "/run/bundle/work", id := "c1",
    bundle := "/run/bundle", io := none, runtimeSet := true, pausing := false,
    status := 0, exited := none, pid := 0, stdinFifo := none,
    stdio := { stdin := "", stdout := "fifo:/run/out", stderr := "fifo:/run/err",
               terminal := false },
    ioUid := 0, ioGid := 0, noPivotRoot := false }

/-- `pBase` after a successful `start`. -/
def pRunning : InitProcess := { pBase with state := .Running }

/-- `pRunning` after a successful `delete`. -/
def pDeleted : InitProcess := { pRunning with state := .Deleted }

/-- A `StdioConfig` whose stdout destination is a `fifo:` URI. -/
def stdioFifoOut : StdioConfig :=
  { stdin := "", stdout := "fifo:/run/out", stderr := "", terminal := false }

/-- A `StdioConfig` whose stdout destination has a scheme that is neither
`fifo` nor `file`. -/
def stdioBadScheme : StdioConfig :=
  { stdin := "", stdout := "https://run/out", stderr := "", terminal := false }

/-- A piped backend whose stdout/stderr read handles are present. -/
def pipedBackend : RuncIoBackend :=
  { kind := .pipedIo, fds := { stdinFd := none, stdoutFd := some 3, stderrFd := some 5 } }

/-- Stdio destinations for the copy-pipes scenarios. -/
def stdioPipes : StdioConfig :=
  { stdin := "", stdout := "/run/c1/out", stderr := "/run/c1/err", terminal := false }

/-- A `ProcessIO` with a piped backend and `copy == true` (the configuration
`copy_pipes` is specified for). -/
def pioPiped : ProcessIo :=
  { io := some pipedBackend, uri := some "fifo:/run/c1/out", copy := true,
    stdio := stdioPipes }

/-- Copy environment in which every destination open succeeds and every copy
loop succeeds. -/
def envCopyAllOk : CopyEnv :=
  { stdoutIsFifo := .ok true, stderrIsFifo := .ok true,
    stdoutFifoWriteOpen := .ok (), stdoutFifoReadOpen := .ok (),
    stderrFifoWriteOpen := .ok (), stderrFifoReadOpen := .ok (),
    stdoutFileOpen := .ok (), stderrFileOpen := .ok (),
    stdoutCopy := .ok 6, stderrCopy := .ok 0,
    stdinFifoOpen := .ok (), stdinCopy := .ok 0 }

/-- Copy environment in which the destination opens (the tasks' setup) all
succeed but the stdout copy loop itself fails with `BrokenPipe`. -/
def envCopyFail : CopyEnv :=
  { envCopyAllOk with stdoutCopy := .error .brokenPipe }

/-- Create environment in which every external step succeeds; the pid-file
holds `42`. -/
def envCreateAllOk : CreateEnv :=
  { nullIoNew := .ok (), runtimeBuild := .ok (), runcCreate := .ok (),
    stdinWriteFifoOpen := .ok (), copyEnv := envCopyAllOk,
    pidFileOpen := .ok (), pidFileContent := 42 }

/-- Create environment in which the runc `create` command fails while the
pid-file area happens to be readable. -/
def envCreateRuncFail : CreateEnv :=
  { envCreateAllOk with runcCreate := .error .other }

/-- Create environment in which opening the pid-file fails (e.g. the bundle
directory does not exist). -/
def envCreatePidFail : CreateEnv :=
  { envCreateAllOk with pidFileOpen := .error .notFound }

/-- What `InitProcess.create pBase cfgBase envCreateRuncFail` leaves behind:
the receiver was made ready, the runc client was left taken, the `ProcessIO`
was lost, yet pid and state were set as if creation had succeeded. -/
def pAfterRuncFail : InitProcess :=
  { pBase with
    waitBlock := some .ready, runtimeSet := false, io := none,
    pid := 42, state := .Created }

/-- Environment for the monitor scenario: the command spawns and exits with
code 0, but the receiver was dropped before the notification was sent. -/
def envMonDropped : MonitorEnv :=
  { spawnRes := .ok (), waitOutputRes := .ok (), statusCode := some 0,
    childPid := some 1234, receiverDropped := true }

/-- A concrete stored init process for the container scenarios. -/
def pSelf : PInitProcess :=
  { state := .Created, workDir := "/run/bundle/work", id := "c1",
    bundle := "/run/bundle", pausing := false, status := 0, exited := none,
    pid := 42, stdio := stdioPipes }

/-- A concrete exec'd process stored under exec-id `"e1"`. -/
def pExec : PInitProcess := { pSelf with id := "e1", pid := 43 }

/-- A concrete container holding `pSelf` and one exec'd process. -/
def cBase : Container :=
  { id := "c1", bundle := "/run/bundle", process_self := pSelf,
    processes := [("e1", pExec)] }

/-- `pBase` with a ready completion receiver (the situation right after a
successful `create`, restricted to the fields `wait` reads). -/
def pReady : InitProcess := { pBase with waitBlock := some RecvState.ready }

/-- What `wait` returns on `pReady`: receiver consumed, state `Stopped`. -/
def pWaited : InitProcess := { pBase with state := .Stopped }

/-- The `ProcessIO` that `ProcessIO::new` builds for `pBase`'s stdio. -/
def procIoNull : ProcessIo :=
  { io := some nullBackend, uri := none, copy := false, stdio := pBase.stdio }

/-- What `InitProcess.create pBase cfgBase envCreateAllOk` returns. -/
def pCreated : InitProcess :=
  { pBase with
    io := some procIoNull, waitBlock := some RecvState.ready,
    pid := 42, state := .Created }

/-! Helper lemmas shared by the claim theorems. -/

/-- Whenever `create_and_io_preparation` returns, it has not touched `state`,
`pid`, `status`, `exited` or `wait_block`: its writes are confined to the
`io`, `runtime` and `stdin` slots. -/
theorem createAndIoPrep_ret_frame {p : InitProcess} {cfg : CreateConfig}
    {env : CreateEnv} {p' : InitProcess} {r : Except IoErr Unit}
    (h : p.createAndIoPreparation cfg env = .ret (p', r)) :
    p'.state = p.state ∧ p'.pid = p.pid ∧ p'.status = p.status ∧
    p'.exited = p.exited ∧ p'.waitBlock = p.waitBlock := by
  unfold InitProcess.createAndIoPreparation at h
  dsimp only at h
  repeat' split at h
  all_goals try exact Run.noConfusion h
  all_goals rw [Run.ret.injEq, Prod.mk.injEq] at h
  all_goals obtain ⟨h1, h2⟩ := h
  all_goals subst h1
  all_goals exact ⟨rfl, rfl, rfl, rfl, rfl⟩

/-- Field-level description of `InitProcess::create`'s returning executions:
`status` and `exited` are never touched; on success the state is `Created`,
the pid is the pid-file content, and the stored oneshot receiver has been
made ready; on failure, state and pid are untouched. -/
theorem create_ret_fields {p : InitProcess} {cfg : CreateConfig} {env : CreateEnv}
    {p' : InitProcess} {r : Except IoErr Unit}
    (h : p.create cfg env = .ret (p', r)) :
    p'.status = p.status ∧ p'.exited = p.exited ∧
    (r = .ok () → p'.state = .Created ∧ p'.pid = env.pidFileContent ∧
      p'.waitBlock = some RecvState.ready) ∧
    (∀ e, r = .error e → p'.state = p.state ∧ p'.pid = p.pid) := by
  unfold InitProcess.create at h
  dsimp only at h
  split at h
  · exact Run.noConfusion h
  split at h
  · rw [Run.ret.injEq, Prod.mk.injEq] at h
    obtain ⟨h1, h2⟩ := h
    subst h1
    subst h2
    exact ⟨rfl, rfl, fun hr => Except.noConfusion hr, fun e2 hr => ⟨rfl, rfl⟩⟩
  · split at h
    · exact Run.noConfusion h
    · split at h
      · exact Run.noConfusion h
      next p3 r3 hprep =>
        obtain ⟨hs, hp, hst, hex, hw⟩ := createAndIoPrep_ret_frame hprep
        split at h
        · rw [Run.ret.injEq, Prod.mk.injEq] at h
          obtain ⟨h1, h2⟩ := h
          subst h1
          subst h2
          exact ⟨hst, hex, fun hr => Except.noConfusion hr, fun e2 hr => ⟨hs, hp⟩⟩
        · rw [Run.ret.injEq, Prod.mk.injEq] at h
          obtain ⟨h1, h2⟩ := h
          subst h1
          subst h2
          exact ⟨hst, hex, fun hr => ⟨rfl, rfl, by simp [hw]⟩,
            fun e2 hr => Except.noConfusion hr⟩

/-- When the runc client is present and a `ProcessIO` is stored,
`create_and_io_preparation` always returns (it cannot hit either `expect`
panic). -/
theorem createAndIoPrep_total {p : InitProcess} {cfg : CreateConfig} {env : CreateEnv}
    (hrt : p.runtimeSet = true) (hio : ∃ x, p.io = some x) :
    ∃ p3 r3, p.createAndIoPreparation cfg env = .ret (p3, r3) := by
  obtain ⟨x, hx⟩ := hio
  unfold InitProcess.createAndIoPreparation
  dsimp only
  repeat' split
  all_goals first
    | exact ⟨_, _, rfl⟩
    | simp_all

/-- The two possible post-states of a returning `start` call. -/
theorem start_ret_cases {p : InitProcess} {e : Except IoErr Unit} {p' : InitProcess}
    {r : Except IoErr Unit} (h : p.start e = .ret (p', r)) :
    p' = p ∨ p' = { p with state := .Running } := by
  unfold InitProcess.start at h
  split at h
  · split at h
    · rw [Run.ret.injEq, Prod.mk.injEq] at h
      exact Or.inl h.1.symm
    · rw [Run.ret.injEq, Prod.mk.injEq] at h
      exact Or.inr h.1.symm
  · exact Run.noConfusion h

/-- The two possible post-states of a returning `delete` call. -/
theorem delete_ret_cases {p : InitProcess} {e : Except IoErr Unit} {p' : InitProcess}
    {r : Except IoErr Unit} (h : p.delete e = .ret (p', r)) :
    p' = p ∨ p' = { p with state := .Deleted } := by
  unfold InitProcess.delete at h
  split at h
  · split at h
    · rw [Run.ret.injEq, Prod.mk.injEq] at h
      exact Or.inl h.1.symm
    · rw [Run.ret.injEq, Prod.mk.injEq] at h
      exact Or.inr h.1.symm
  · exact Run.noConfusion h

/-- A returning `kill` call leaves the process exactly as it was. -/
theorem kill_ret_eq {p : InitProcess} {sig : Nat} {all : Bool}
    {e : Except IoErr Unit} {p' : InitProcess} {r : Except IoErr Unit}
    (h : p.kill sig all e = .ret (p', r)) : p' = p := by
  unfold InitProcess.kill at h
  split at h
  · split at h
    · rw [Run.ret.injEq, Prod.mk.injEq] at h
      exact h.1.symm
    · rw [Run.ret.injEq, Prod.mk.injEq] at h
      exact h.1.symm
  · exact Run.noConfusion h

/-- The three possible post-states of a returning `wait` call. -/
theorem wait_ret_cases {p p' : InitProcess} {r : Except IoErr Unit}
    (h : p.wait = .ret p' r) :
    p' = p ∨ p' = { p with waitBlock := none } ∨
      p' = { p with waitBlock := none, state := .Stopped } := by
  unfold InitProcess.wait at h
  dsimp only at h
  split at h
  · rw [WaitRun.ret.injEq] at h
    exact Or.inl h.1.symm
  · split at h
    · exact WaitRun.noConfusion h
    · rw [WaitRun.ret.injEq] at h
      exact Or.inr (Or.inr h.1.symm)
    · rw [WaitRun.ret.injEq] at h
      exact Or.inr (Or.inl h.1.symm)

/-- The state after a returning `create` call: `Created` on success,
unchanged on failure. -/
theorem create_ret_state_cases {p : InitProcess} {cfg : CreateConfig}
    {env : CreateEnv} {p' : InitProcess} {r : Except IoErr Unit}
    (h : p.create cfg env = .ret (p', r)) :
    p'.state = .Created ∨ p'.state = p.state := by
  obtain ⟨-, -, hok, herr⟩ := create_ret_fields h
  cases r with
  | ok u => exact Or.inl (hok rfl).1
  | error e => exact Or.inr (herr e rfl).1

/-! Claim theorems. -/

/-- C2 counterexample: for a `StdioConfig` that names a `fifo:`-scheme stdout
destination, `ProcessIO::new` returns a null-IO `ProcessIO` with
`copy == false` (the claim requires a piped backend with `copy == true`);
and for a stdout destination whose scheme is neither `fifo` nor `file`,
`ProcessIO::new` succeeds (the claim requires an error). -/
theorem c2_counterexample :
    ProcessIo.new "c1" 0 0 stdioFifoOut (.ok ()) =
      .ok { io := some nullBackend, uri := none, copy := false, stdio := stdioFifoOut } ∧
    ProcessIo.new "c1" 0 0 stdioBadScheme (.ok ()) =
      .ok { io := some nullBackend, uri := none, copy := false, stdio := stdioBadScheme } :=
  ⟨rfl, rfl⟩

/-- C2 (amended): `ProcessIO::new` never inspects the stdout destination: for
every `StdioConfig` whatsoever it returns a null-IO-backed `ProcessIO` with
`copy == false` whenever `NullIO::new` succeeds, and propagates the
`NullIO::new` error otherwise (the URI-inspection code at `io.rs:61-132` is
unreachable behind the early return at `io.rs:53-59`). -/
theorem c2_new_is_always_null (id : String) (io_uid io_gid : Int)
    (stdio : StdioConfig) (e : IoErr) :
    ProcessIo.new id io_uid io_gid stdio (.ok ()) =
      .ok { io := some nullBackend, uri := none, copy := false, stdio := stdio } ∧
    ProcessIo.new id io_uid io_gid stdio (.error e) = .error e :=
  ⟨rfl, rfl⟩

/-- C1 counterexample: a `ProcessIO` with `copy == true` whose per-stream
setup (both destination-FIFO opens) succeeds but whose stdout copy loop
fails with `BrokenPipe`: `copy_pipes` returns that copy error to its caller
(the claim requires the error to stay inside the fire-and-forget task and
`copy_pipes` to return success). -/
theorem c1_counterexample :
    pioPiped.copy = true ∧
    pioPiped.copyPipes envCopyFail = .ret (.error .brokenPipe) :=
  ⟨rfl, rfl⟩

/-- C1 (amended): `copy_pipes` (with `copy == true`) joins every spawned copy
task before returning — `for t in tasks { t.await??; }` at `io.rs:336-338` —
so it returns `Ok` exactly when the `is_fifo` checks, every spawned
stdout/stderr copy task, and (when stdin is requested) the stdin FIFO open
and stdin copy task all succeeded; any task error is propagated to the
caller rather than merely logged. -/
theorem c1_copy_pipes_joins_tasks (io : RuncIoBackend) (stdio : StdioConfig)
    (env : CopyEnv) :
    copyPipesFree io stdio env = .ok () ↔
      (∃ b0, env.stdoutIsFifo = .ok b0 ∧
        streamTaskResult b0 env.stdoutFifoWriteOpen env.stdoutFifoReadOpen
          env.stdoutFileOpen io.fds.stdoutFd env.stdoutCopy = .ok ()) ∧
      (∃ b1, env.stderrIsFifo = .ok b1 ∧
        streamTaskResult b1 env.stderrFifoWriteOpen env.stderrFifoReadOpen
          env.stderrFileOpen io.fds.stderrFd env.stderrCopy = .ok ()) ∧
      (stdio.stdin ≠ "" →
        env.stdinFifoOpen = .ok () ∧
        stdinTaskResult io.fds.stdinFd env.stdinCopy = .ok ()) := by
  unfold copyPipesFree
  rcases h0 : env.stdoutIsFifo with e0 | b0
  · simp [h0, Bind.bind, Except.bind]
  rcases h1 : env.stderrIsFifo with e1 | b1
  · simp [h0, h1, Bind.bind, Except.bind]
  by_cases hs : stdio.stdin = ""
  · rcases ht0 : streamTaskResult b0 env.stdoutFifoWriteOpen env.stdoutFifoReadOpen
        env.stdoutFileOpen io.fds.stdoutFd env.stdoutCopy with e2 | ⟨⟩ <;>
    rcases ht1 : streamTaskResult b1 env.stderrFifoWriteOpen env.stderrFifoReadOpen
        env.stderrFileOpen io.fds.stderrFd env.stderrCopy with e3 | ⟨⟩ <;>
    simp [h0, h1, hs, ht0, ht1, Bind.bind, Except.bind, Pure.pure, Except.pure]
  · rcases hsi : env.stdinFifoOpen with e4 | ⟨⟩
    · simp [h0, h1, hs, hsi, Bind.bind, Except.bind, Pure.pure, Except.pure]
    · rcases ht0 : streamTaskResult b0 env.stdoutFifoWriteOpen env.stdoutFifoReadOpen
          env.stdoutFileOpen io.fds.stdoutFd env.stdoutCopy with e2 | ⟨⟩ <;>
      rcases ht1 : streamTaskResult b1 env.stderrFifoWriteOpen env.stderrFifoReadOpen
          env.stderrFileOpen io.fds.stderrFd env.stderrCopy with e3 | ⟨⟩ <;>
      rcases hti : stdinTaskResult io.fds.stdinFd env.stdinCopy with e5 | ⟨⟩ <;>
      simp [h0, h1, hs, hsi, ht0, ht1, hti, Bind.bind, Except.bind, Pure.pure,
        Except.pure]

/-- C1 witness: on a concrete piped backend and all-succeeding environment,
the amended theorem yields that `copy_pipes` returns `Ok`. -/
theorem c1_copy_pipes_joins_tasks_witness :
    copyPipesFree pipedBackend stdioPipes envCopyAllOk = .ok () :=
  (c1_copy_pipes_joins_tasks pipedBackend stdioPipes envCopyAllOk).mpr
    ⟨⟨true, rfl, rfl⟩, ⟨true, rfl, rfl⟩, fun hcon => absurd rfl hcon⟩

/-- C8: if the oneshot receiver has been dropped before `ProcessMonitor::start`
reaches its send, `start` returns a `ConnectionRefused` error (and does not
panic the supervising task, and nothing is delivered); and if the sender is
dropped before sending, `ProcessMonitor::wait` returns a `BrokenPipe`
error. -/
theorem c8_monitor_channel_failures :
    (∀ env now c, env.spawnRes = .ok () → env.waitOutputRes = .ok () →
      env.statusCode = some c → env.receiverDropped = true →
      monitorStart env now = .ret (.error .connectionRefused) none) ∧
    monitorWait .senderDropped = .ret (.error .brokenPipe) := by
  refine ⟨?_, rfl⟩
  intro env now c h1 h2 h3 h4
  simp [monitorStart, h1, h2, h3, h4]

/-- C8 witness: the monitor theorem applied to a concrete environment whose
command exits with status 0 after the receiver was dropped. -/
theorem c8_monitor_channel_failures_witness :
    monitorStart envMonDropped 7 = .ret (.error .connectionRefused) none :=
  c8_monitor_channel_failures.1 envMonDropped 7 0 rfl rfl rfl rfl

/-- C5: whenever `wait` returns, it has taken the oneshot receiver out of
`wait_block`, so a second `wait` on the resulting process fails immediately
with a `NotFound` error (it does not block). -/
theorem c5_second_wait_not_found (p p' : InitProcess) (r : Except IoErr Unit)
    (h : p.wait = .ret p' r) :
    p'.waitBlock = none ∧ p'.wait = .ret p' (.error .notFound) := by
  have hwb : p'.waitBlock = none := by
    unfold InitProcess.wait at h
    dsimp only at h
    split at h
    · rw [WaitRun.ret.injEq] at h
      obtain ⟨h1, h2⟩ := h
      subst h1
      assumption
    · split at h
      · exact WaitRun.noConfusion h
      · rw [WaitRun.ret.injEq] at h
        obtain ⟨h1, h2⟩ := h
        subst h1
        rfl
      · rw [WaitRun.ret.injEq] at h
        obtain ⟨h1, h2⟩ := h
        subst h1
        rfl
  exact ⟨hwb, by simp [InitProcess.wait, hwb]⟩

/-- C5 witness: the consumption theorem applied to a concrete process whose
receiver is ready. -/
theorem c5_second_wait_not_found_witness :
    pWaited.waitBlock = none ∧ pWaited.wait = .ret pWaited (.error .notFound) :=
  c5_second_wait_not_found pReady pWaited (.ok ()) rfl

/-- C6: when the pid-file inside the bundle directory cannot be opened,
`create` returns that filesystem error, and the process's state remains
`Unknown` and its pid remains 0. -/
theorem c6_create_pid_file_failure (p : InitProcess) (cfg : CreateConfig)
    (env : CreateEnv) (e : IoErr)
    (hterm : cfg.terminal = false) (hnull : env.nullIoNew = .ok ())
    (hrt : p.runtimeSet = true) (hpid : env.pidFileOpen = .error e)
    (hst : p.state = .Unknown) (hp0 : p.pid = 0) :
    ∃ p', p.create cfg env = .ret (p', .error e) ∧
      p'.state = .Unknown ∧ p'.pid = 0 := by
  unfold InitProcess.create
  dsimp only
  split
  · simp_all
  split
  · next heq => simp [ProcessIo.new, hnull] at heq
  next procIo heq =>
    simp [ProcessIo.new, hnull] at heq
    subst heq
    dsimp only
    split
    · next hprep =>
      unfold InitProcess.createAndIoPreparation at hprep
      dsimp only at hprep
      repeat' split at hprep
      all_goals simp_all
    · next p3 r3 hprep =>
      obtain ⟨hs3, hp3, -, -, -⟩ := createAndIoPrep_ret_frame hprep
      split
      · next e2 hpo =>
        rw [hpid] at hpo
        injection hpo with he
        subst he
        exact ⟨_, rfl, hs3.trans hst, hp3.trans hp0⟩
      · next hpo =>
        rw [hpid] at hpo
        exact Except.noConfusion hpo

/-- C6 witness: a concrete fresh process and an environment whose pid-file
open fails with `NotFound`. -/
theorem c6_create_pid_file_failure_witness :
    ∃ p', pBase.create cfgBase envCreatePidFail = .ret (p', .error .notFound) ∧
      p'.state = .Unknown ∧ p'.pid = 0 :=
  c6_create_pid_file_failure pBase cfgBase envCreatePidFail .notFound
    rfl rfl rfl rfl rfl rfl

/-- C9: when `create` returns success, the completion signal has already been
sent during `create` itself, so the first subsequent `wait` returns `Ok`
immediately (it does not suspend) and sets the state to `Stopped`, even
though the state had just been set to `Created`. -/
theorem c9_first_wait_after_successful_create (p : InitProcess)
    (cfg : CreateConfig) (env : CreateEnv) (p' : InitProcess)
    (h : p.create cfg env = .ret (p', .ok ())) :
    p'.state = .Created ∧
    p'.wait = .ret { p' with waitBlock := none, state := .Stopped } (.ok ()) := by
  obtain ⟨-, -, hok, -⟩ := create_ret_fields h
  obtain ⟨hst, -, hwb⟩ := hok rfl
  refine ⟨hst, ?_⟩
  simp [InitProcess.wait, hwb]

/-- C9 witness: the concrete all-successful create, after which `wait`
returns immediately and stops the process. -/
theorem c9_first_wait_after_successful_create_witness :
    pCreated.state = .Created ∧
    pCreated.wait = .ret { pCreated with waitBlock := none, state := .Stopped } (.ok ()) :=
  c9_first_wait_after_successful_create pBase cfgBase envCreateAllOk pCreated rfl

/-- C3: evaluation of `create` at the failing input.  The runc `create`
command fails, yet `create` — which drops `create_and_io_preparation`'s
`io::Result` at `init.rs:188` — still sends the "created" notification
(`tx.send` at `init.rs:189`, making the stored receiver ready), reads the
pid-file, sets `state = Created` and returns `Ok`. -/
theorem c3_notification_sent_despite_failure :
    envCreateRuncFail.runcCreate = .error .other ∧
    pBase.create cfgBase envCreateRuncFail = .ret (pAfterRuncFail, .ok ()) ∧
    pAfterRuncFail.waitBlock = some RecvState.ready ∧
    pAfterRuncFail.state = .Created :=
  ⟨rfl, rfl, rfl, rfl⟩

/-- C4 counterexample: a successful `start` on a fresh (`Unknown`) process
moves it directly to `Running`, skipping `Created`; and `set_exited` on a
`Deleted` process moves it to `Stopped`, leaving the `Deleted` state. -/
theorem c4_state_machine_counterexample :
    InitProcess.new "/run/bundle/work" cfgBase true 0 0 false = .ok pBase ∧
    pBase.state = .Unknown ∧
    pBase.start (.ok ()) = .ret (pRunning, .ok ()) ∧
    pRunning.state = .Running ∧
    pRunning.delete (.ok ()) = .ret (pDeleted, .ok ()) ∧
    pDeleted.state = .Deleted ∧
    pDeleted.setExited 137 5 =
      { pDeleted with state := .Stopped, exited := some 5, status := 137 } ∧
    (pDeleted.setExited 137 5).state = .Stopped :=
  ⟨rfl, rfl, rfl, rfl, rfl, rfl, rfl, rfl⟩

/-- C4 (amended): the operations do not guard on the current state — a
successful `start` sets `Running` from any state (including `Unknown`,
skipping `Created`), a successful `delete` sets `Deleted` from any state,
`set_exited` sets `Stopped` from any state (including `Deleted`), a `wait`
that consumed a ready receiver sets `Stopped`, and a successful `create`
sets `Created`; no edge discipline restricts these transitions. -/
theorem c4_transitions_unrestricted :
    (∀ (p : InitProcess) (e : Except IoErr Unit) (p' : InitProcess),
      p.start e = .ret (p', .ok ()) → p'.state = .Running) ∧
    (∀ (p : InitProcess) (e : Except IoErr Unit) (p' : InitProcess),
      p.delete e = .ret (p', .ok ()) → p'.state = .Deleted) ∧
    (∀ (p : InitProcess) (st : Int) (t : Nat), (p.setExited st t).state = .Stopped) ∧
    (∀ (p p' : InitProcess), p.wait = .ret p' (.ok ()) → p'.state = .Stopped) ∧
    (∀ (p : InitProcess) (cfg : CreateConfig) (env : CreateEnv) (p' : InitProcess),
      p.create cfg env = .ret (p', .ok ()) → p'.state = .Created) := by
  refine ⟨?_, ?_, fun p st t => rfl, ?_, ?_⟩
  · intro p e p' h
    unfold InitProcess.start at h
    split at h
    · split at h
      · rw [Run.ret.injEq, Prod.mk.injEq] at h
        exact absurd h.2 (by simp)
      · rw [Run.ret.injEq, Prod.mk.injEq] at h
        rw [← h.1]
    · exact Run.noConfusion h
  · intro p e p' h
    unfold InitProcess.delete at h
    split at h
    · split at h
      · rw [Run.ret.injEq, Prod.mk.injEq] at h
        exact absurd h.2 (by simp)
      · rw [Run.ret.injEq, Prod.mk.injEq] at h
        rw [← h.1]
    · exact Run.noConfusion h
  · intro p p' h
    unfold InitProcess.wait at h
    dsimp only at h
    split at h
    · rw [WaitRun.ret.injEq] at h
      exact absurd h.2 (by simp)
    · split at h
      · exact WaitRun.noConfusion h
      · rw [WaitRun.ret.injEq] at h
        rw [← h.1]
      · rw [WaitRun.ret.injEq] at h
        exact absurd h.2 (by simp)
  · intro p cfg env p' h
    exact ((create_ret_fields h).2.2.1 rfl).1

/-- C4 witness: the amended theorem applied to the concrete fresh process
(start from `Unknown` yields `Running`) and to the running process (delete
yields `Deleted`). -/
theorem c4_transitions_unrestricted_witness :
    pRunning.state = .Running ∧ pDeleted.state = .Deleted :=
  ⟨c4_transitions_unrestricted.1 pBase (.ok ()) pRunning rfl,
   c4_transitions_unrestricted.2.1 pRunning (.ok ()) pDeleted rfl⟩

/-- C7: `kill` never modifies the process — in particular not the lifecycle
state, exit status or exit timestamp; `set_exited` sets `Stopped` and records
the timestamp and status; no operation other than `set_exited` writes the
status or the timestamp; and along any sequence of returning operations
containing no completion-observation event (`set_exited` or `wait`), a
process that is not `Stopped` never becomes `Stopped` — so after a `kill`
the state is `Stopped` only if an exit observation had already occurred. -/
theorem c7_kill_is_frame :
    (∀ (p : InitProcess) (sig : Nat) (all : Bool) (e : Except IoErr Unit)
      (p' : InitProcess) (r : Except IoErr Unit),
      p.kill sig all e = .ret (p', r) → p' = p) ∧
    (∀ (p : InitProcess) (st : Int) (t : Nat),
      (p.setExited st t).state = .Stopped ∧ (p.setExited st t).exited = some t ∧
      (p.setExited st t).status = st) ∧
    (∀ (p : InitProcess) (o : Op) (p' : InitProcess), Step p o p' →
      o.isSetExited = false → p'.status = p.status ∧ p'.exited = p.exited) ∧
    (∀ (p : InitProcess) (ops : List Op) (p' : InitProcess), Steps p ops p' →
      (∀ o ∈ ops, o.observesExit = false) →
      p.state ≠ .Stopped → p'.state ≠ .Stopped) := by
  refine ⟨fun p sig all e p' r h => kill_ret_eq h,
    fun p st t => ⟨rfl, rfl, rfl⟩, ?_, ?_⟩
  · intro p o p' hstep hno
    cases hstep with
    | create h => obtain ⟨h1, h2, -, -⟩ := create_ret_fields h; exact ⟨h1, h2⟩
    | start h => rcases start_ret_cases h with rfl | rfl <;> exact ⟨rfl, rfl⟩
    | delete h => rcases delete_ret_cases h with rfl | rfl <;> exact ⟨rfl, rfl⟩
    | kill h => rw [kill_ret_eq h]; exact ⟨rfl, rfl⟩
    | setExited => simp [Op.isSetExited] at hno
    | wait h => rcases wait_ret_cases h with rfl | rfl | rfl <;> exact ⟨rfl, rfl⟩
  · intro p ops p' hsteps
    induction hsteps with
    | nil => intro _ hstate; exact hstate
    | cons hstep hrest ih =>
      intro hobs hstate
      refine ih (fun o ho => hobs o (List.mem_cons_of_mem _ ho)) ?_
      have hhead := hobs _ (List.mem_cons_self _ _)
      cases hstep with
      | create h =>
        rcases create_ret_state_cases h with h1 | h1 <;> rw [h1]
        · simp
        · exact hstate
      | start h =>
        rcases start_ret_cases h with rfl | rfl
        · exact hstate
        · simp
      | delete h =>
        rcases delete_ret_cases h with rfl | rfl
        · exact hstate
        · simp
      | kill h => rw [kill_ret_eq h]; exact hstate
      | setExited => simp [Op.observesExit] at hhead
      | wait h => simp [Op.observesExit] at hhead

/-- C7 witness: along the concrete trace start-then-kill from the fresh
process (no exit observation), the state is not `Stopped`; and `set_exited`
records the concrete timestamp. -/
theorem c7_kill_is_frame_witness :
    pRunning.state ≠ ProcessState.Stopped ∧
    (pBase.setExited 137 5).exited = some 5 :=
  ⟨c7_kill_is_frame.2.2.2 pBase [.start (.ok ()), .kill 9 true (.ok ())] pRunning
      (Steps.cons (Step.start rfl) (Steps.cons (Step.kill rfl) Steps.nil))
      (by decide) (by decide),
   (c7_kill_is_frame.2.1 pBase 137 5).2.1⟩

/-- C10: `Container::process` returns an owned clone of the stored process —
exec-id `""` resolves to `process_self` and any other exec-id to the stored
map entry — and the resolve-then-mutate calling pattern leaves the
container's own `process_self` and exec-id map entries unchanged, whatever
mutation is applied to the returned handle. -/
theorem c10_process_returns_clone (c : Container) (eid : String)
    (p : PInitProcess) (h : c.process eid = .ok p)
    (f : PInitProcess → PInitProcess) :
    (eid = "" → p = c.process_self) ∧
    (eid ≠ "" → c.processes.lookup eid = some p) ∧
    c.mutateResolved eid f = .ok (c, f p) := by
  refine ⟨?_, ?_, ?_⟩
  · intro he
    subst he
    unfold Container.process at h
    simp at h
    exact h.symm
  · intro hne
    unfold Container.process at h
    rw [if_neg hne] at h
    split at h
    · next q hq =>
      rw [hq]
      exact congrArg some (Except.ok.inj h)
    · exact Except.noConfusion h
  · unfold Container.mutateResolved
    rw [h]

/-- C10 witness: mutating (starting) the handle resolved for exec-id `""`
leaves the concrete container unchanged while the handle becomes `Running`;
resolving again still returns the stored, unmutated process. -/
theorem c10_process_returns_clone_witness :
    cBase.mutateResolved "" (fun q => (q.start (.ok ())).1) =
      .ok (cBase, { pSelf with state := .Running }) ∧
    cBase.process "" = .ok pSelf :=
  ⟨(c10_process_returns_clone cBase "" pSelf rfl
      (fun q => (q.start (.ok ())).1)).2.2, rfl⟩

end ShimRunc
